import Mathlib

/-!
Verification of the frame-to-glyph rendering engine of `MatrixCanvas.tsx`
(repository `Arothurk/Matrix`).

The engine is shallowly embedded: JavaScript floating-point arithmetic on
pixel values and timestamps is modelled by exact rational arithmetic (`ℚ`),
byte-valued pixel channels by `ℕ`, the canvas 2D context by an explicit
command list together with a small interpreter that records the style state
in force at every paint, and the `requestAnimationFrame`-driven tick by a
pure function from an environment and the stored last-draw time to a tick
result.  `Math.random`-driven glyph selection is modelled by an oracle
function supplied as a parameter.
-/

namespace MatrixVision

/-- The five brightness tiers of the bucket system
(`MatrixCanvas.tsx`, lines 13–19). -/
inductive Tier where
  | DIM
  | LOW
  | MID
  | BRIGHT
  | GLOW
deriving DecidableEq, Repr

/-- One entry of the `BUCKETS` table: display color, opacity, threshold,
glow radius and glow color. -/
structure Bucket where
  color : String
  alpha : ℚ
  threshold : ℚ
  glow : ℚ
  glowColor : String
deriving DecidableEq, Repr

/-- The `BUCKETS` constant (`MatrixCanvas.tsx`, lines 13–19). -/
def BUCKETS : Tier → Bucket
  | .GLOW   => { color := "#EEFFEE", alpha := 1.0,  threshold := 240, glow := 15, glowColor := "#00FF00" }
  | .BRIGHT => { color := "#00FF41", alpha := 0.95, threshold := 160, glow := 0,  glowColor := "" }
  | .MID    => { color := "#00D200", alpha := 0.75, threshold := 90,  glow := 0,  glowColor := "" }
  | .LOW    => { color := "#007500", alpha := 0.40, threshold := 40,  glow := 0,  glowColor := "" }
  | .DIM    => { color := "#003300", alpha := 0.15, threshold := 10,  glow := 0,  glowColor := "" }

/-- Perceptual luma of one cell's RGB sample
(`MatrixCanvas.tsx`, line 111: `luma = 0.299 * r + 0.587 * g + 0.114 * b`). -/
def luma (r g b : ℕ) : ℚ :=
  0.299 * r + 0.587 * g + 0.114 * b

/-- Contrast-boosted brightness (`MatrixCanvas.tsx`, lines 113–114:
`normalized = luma / 255; contrast = (normalized * normalized) * 255 * 1.2`). -/
def contrastOf (r g b : ℕ) : ℚ :=
  let normalized := luma r g b / 255
  normalized * normalized * 255 * 1.2

/-- Tier assignment from a contrast value: the drop test and the
brightest-to-darkest threshold chain of `MatrixCanvas.tsx`, lines 116–127
(`continue` when below `BUCKETS.DIM.threshold`, then the
`if / else if / … / else` push chain). -/
def classifyC (contrast : ℚ) : Option Tier :=
  if contrast < (BUCKETS .DIM).threshold then none
  else if contrast > (BUCKETS .GLOW).threshold then some .GLOW
  else if contrast > (BUCKETS .BRIGHT).threshold then some .BRIGHT
  else if contrast > (BUCKETS .MID).threshold then some .MID
  else if contrast > (BUCKETS .LOW).threshold then some .LOW
  else some .DIM

/-- The classifier of one cell sample: lines 111–127 of `MatrixCanvas.tsx`
as a pure function, `none` meaning the cell is dropped (no glyph). -/
def classify (r g b : ℕ) : Option Tier :=
  classifyC (contrastOf r g b)

/-- Reference classifier written from the specification's words (§4.2):
luma `L = 0.299r + 0.587g + 0.114b`, normalization `n = L/255`, contrast
boost `c = min 255 (n² × 255 × 1.2)`, dropping when `c` is below the DIM
threshold 10, otherwise the highest tier whose threshold `c` exceeds,
checked from brightest to darkest.  It differs from `classify` only in the
`min 255` clamp, which the code does not perform. -/
def classifyRef (r g b : ℕ) : Option Tier :=
  let L : ℚ := 0.299 * r + 0.587 * g + 0.114 * b
  let n := L / 255
  let c := min 255 (n ^ 2 * 255 * 1.2)
  if c < (BUCKETS .DIM).threshold then none
  else if c > (BUCKETS .GLOW).threshold then some .GLOW
  else if c > (BUCKETS .BRIGHT).threshold then some .BRIGHT
  else if c > (BUCKETS .MID).threshold then some .MID
  else if c > (BUCKETS .LOW).threshold then some .LOW
  else some .DIM

/-- Rank of a classification result in the order
dropped < DIM < LOW < MID < BRIGHT < GLOW. -/
def rankOpt : Option Tier → ℕ
  | none => 0
  | some .DIM => 1
  | some .LOW => 2
  | some .MID => 3
  | some .BRIGHT => 4
  | some .GLOW => 5

lemma luma_nonneg (r g b : ℕ) : 0 ≤ luma r g b := by
  unfold luma; positivity

lemma luma_mono {r r' g g' b b' : ℕ} (hr : r ≤ r') (hg : g ≤ g') (hb : b ≤ b') :
    luma r g b ≤ luma r' g' b' := by
  unfold luma
  have h1 : (0.299:ℚ) * r ≤ 0.299 * r' :=
    mul_le_mul_of_nonneg_left (by exact_mod_cast hr) (by norm_num)
  have h2 : (0.587:ℚ) * g ≤ 0.587 * g' :=
    mul_le_mul_of_nonneg_left (by exact_mod_cast hg) (by norm_num)
  have h3 : (0.114:ℚ) * b ≤ 0.114 * b' :=
    mul_le_mul_of_nonneg_left (by exact_mod_cast hb) (by norm_num)
  linarith

lemma contrastOf_mono {r r' g g' b b' : ℕ} (hr : r ≤ r') (hg : g ≤ g') (hb : b ≤ b') :
    contrastOf r g b ≤ contrastOf r' g' b' := by
  unfold contrastOf
  have h0 := luma_nonneg r g b
  have h1 := luma_mono hr hg hb
  have h3 : (0:ℚ) ≤ luma r g b / 255 := by positivity
  have h2 : luma r g b / 255 ≤ luma r' g' b' / 255 := by linarith
  have := mul_self_le_mul_self h3 h2
  linarith

/-- Tier assignment is monotone in the contrast value. -/
lemma classifyC_mono {c c' : ℚ} (h : c ≤ c') :
    rankOpt (classifyC c) ≤ rankOpt (classifyC c') := by
  simp only [classifyC, BUCKETS]
  split_ifs <;> simp_all [rankOpt] <;> linarith

lemma min255_lt_iff {X t : ℚ} (ht : t < 255) : min 255 X < t ↔ X < t := by
  rw [min_lt_iff]
  constructor
  · rintro (h | h)
    · linarith
    · exact h
  · exact Or.inr

lemma min255_gt_iff {X t : ℚ} (ht : t < 255) : min 255 X > t ↔ X > t := by
  rw [gt_iff_lt, lt_min_iff]
  constructor
  · rintro ⟨_, h2⟩; exact h2
  · exact fun h => ⟨ht, h⟩

/-- **C2.** For every RGB triple with each channel in 0..255, the code's
classifier (`classify`, no clamp) agrees with the specification's reference
definition (`classifyRef`, contrast clamped by `min 255`): the clamp can
never change the outcome of any threshold comparison because every
threshold lies below 255. -/
theorem classify_matches_reference (r g b : ℕ)
    (hr : r ≤ 255) (hg : g ≤ 255) (hb : b ≤ 255) :
    classify r g b = classifyRef r g b := by
  unfold classify classifyRef classifyC contrastOf luma
  simp only [pow_two]
  simp only [min255_lt_iff (show ((BUCKETS .DIM).threshold:ℚ) < 255 by norm_num [BUCKETS]),
    min255_gt_iff (show ((BUCKETS .GLOW).threshold:ℚ) < 255 by norm_num [BUCKETS]),
    min255_gt_iff (show ((BUCKETS .BRIGHT).threshold:ℚ) < 255 by norm_num [BUCKETS]),
    min255_gt_iff (show ((BUCKETS .MID).threshold:ℚ) < 255 by norm_num [BUCKETS]),
    min255_gt_iff (show ((BUCKETS .LOW).threshold:ℚ) < 255 by norm_num [BUCKETS])]

/-- Witness for **C2** at the concrete triple (128, 64, 32). -/
theorem classify_matches_reference_witness :
    classify 128 64 32 = classifyRef 128 64 32 :=
  classify_matches_reference 128 64 32 (by decide) (by decide) (by decide)

/-- **C7.** The classifier is monotone: raising any combination of the
channels (in particular any single channel, the other two held fixed) never
lowers the result in the order dropped < DIM < LOW < MID < BRIGHT < GLOW. -/
theorem classify_monotone (r r' g g' b b' : ℕ)
    (hr : r ≤ r') (hg : g ≤ g') (hb : b ≤ b') :
    rankOpt (classify r g b) ≤ rankOpt (classify r' g' b') :=
  classifyC_mono (contrastOf_mono hr hg hb)

/-- Witness for **C7**: a concrete single-channel increase. -/
theorem classify_monotone_witness :
    rankOpt (classify 10 20 30) ≤ rankOpt (classify 200 20 30) :=
  classify_monotone 10 200 20 20 30 30 (by decide) (by decide) (by decide)

/-- One sampled cell: the RGB triple read from the downsampled pixel buffer
(`MatrixCanvas.tsx`, lines 106–109). -/
structure Px where
  r : ℕ
  g : ℕ
  b : ℕ
deriving DecidableEq, Repr

/-- Classifier applied to one cell sample. -/
def classifyPx (p : Px) : Option Tier :=
  classify p.r p.g p.b

/-- The grid cells in the iteration order of the nested loop of
`MatrixCanvas.tsx`, lines 104–105 (`y` outer over `rows`, `x` inner over
`cols`). -/
def gridCells (cols rows : ℕ) : List (ℕ × ℕ) :=
  (List.range rows).flatMap fun y => (List.range cols).map fun x => (x, y)

/-- Draw position of cell `(x, y)` (`MatrixCanvas.tsx`, lines 120–121):
`drawX = isMirrored ? (cols - 1 - x) * fontSize : x * fontSize`,
`drawY = y * fontSize`. -/
def drawPos (isMirrored : Bool) (cols fontSize x y : ℕ) : ℕ × ℕ :=
  (if isMirrored then (cols - 1 - x) * fontSize else x * fontSize, y * fontSize)

/-- One pending glyph draw: position in logical pixels plus the randomly
chosen character (`MatrixCanvas.tsx`, lines 118–127). -/
structure GlyphDraw where
  x : ℕ
  y : ℕ
  char : Char
deriving DecidableEq, Repr

/-- The cells of the grid whose sample classifies into tier `t`, in
iteration order: exactly the cells the loop pushes onto `batches[t]`. -/
def tierCells (frame : ℕ → ℕ → Px) (cols rows : ℕ) (t : Tier) : List (ℕ × ℕ) :=
  (gridCells cols rows).filter fun c => decide (classifyPx (frame c.1 c.2) = some t)

/-- The per-tier batch built by the loop of `MatrixCanvas.tsx`,
lines 104–128: every visible cell of tier `t` contributes one `GlyphDraw`
at its (possibly mirrored) draw position, with a glyph chosen by the
random oracle `pick`. -/
def batchFor (frame : ℕ → ℕ → Px) (cols rows fontSize : ℕ) (isMirrored : Bool)
    (pick : ℕ → ℕ → Char) (t : Tier) : List GlyphDraw :=
  (tierCells frame cols rows t).map fun c =>
    { x := (drawPos isMirrored cols fontSize c.1 c.2).1
      y := (drawPos isMirrored cols fontSize c.1 c.2).2
      char := pick c.1 c.2 }

lemma mem_gridCells {cols rows x y : ℕ} :
    (x, y) ∈ gridCells cols rows ↔ x < cols ∧ y < rows := by
  simp only [gridCells, List.mem_flatMap, List.mem_map, List.mem_range, Prod.mk.injEq]
  constructor
  · rintro ⟨y', hy', x', hx', hx, hy⟩
    subst hx; subst hy; exact ⟨hx', hy'⟩
  · rintro ⟨hx, hy⟩
    exact ⟨y, hy, x, hx, rfl, rfl⟩

lemma length_gridCells (cols rows : ℕ) :
    (gridCells cols rows).length = cols * rows := by
  induction rows with
  | zero => simp [gridCells]
  | succ n ih =>
    simp only [gridCells, List.range_succ, List.flatMap_append] at *
    simp [ih, List.length_append, Nat.mul_succ]

lemma mem_tierCells {frame : ℕ → ℕ → Px} {cols rows : ℕ} {t : Tier} {x y : ℕ} :
    (x, y) ∈ tierCells frame cols rows t ↔
      (x < cols ∧ y < rows) ∧ classifyPx (frame x y) = some t := by
  simp [tierCells, List.mem_filter, mem_gridCells]

lemma countP_tiers (frame : ℕ → ℕ → Px) (l : List (ℕ × ℕ)) :
    l.countP (fun c => decide (classifyPx (frame c.1 c.2) = some Tier.DIM)) +
    l.countP (fun c => decide (classifyPx (frame c.1 c.2) = some Tier.LOW)) +
    l.countP (fun c => decide (classifyPx (frame c.1 c.2) = some Tier.MID)) +
    l.countP (fun c => decide (classifyPx (frame c.1 c.2) = some Tier.BRIGHT)) +
    l.countP (fun c => decide (classifyPx (frame c.1 c.2) = some Tier.GLOW)) =
    l.countP (fun c => (classifyPx (frame c.1 c.2)).isSome) := by
  induction l with
  | nil => simp
  | cons c l ih =>
    rcases h : classifyPx (frame c.1 c.2) with _ | t
    · simp [List.countP_cons, h]
      omega
    · cases t <;> simp [List.countP_cons, h] <;> omega

lemma batchFor_length (frame : ℕ → ℕ → Px) (cols rows fontSize : ℕ) (m : Bool)
    (pick : ℕ → ℕ → Char) (t : Tier) :
    (batchFor frame cols rows fontSize m pick t).length =
      (gridCells cols rows).countP (fun c => decide (classifyPx (frame c.1 c.2) = some t)) := by
  simp [batchFor, tierCells, ← List.countP_eq_length_filter]

/-- **C5.** For one and the same sampled frame, the mirrored render's
batch of tier `t` is exactly the unmirrored batch of the same tier with
every x-position reflected across `(cols − 1) · fontSize` — cell for cell,
in the same cell order and hence with identical tier assignment per
reflected pair — and cell `(x, y)` is drawn at
`((cols − 1 − x) · fontSize, y · fontSize)` when mirrored and at
`(x · fontSize, y · fontSize)` when not. -/
theorem mirror_reflection (frame : ℕ → ℕ → Px) (cols rows fontSize : ℕ)
    (pick : ℕ → ℕ → Char) (t : Tier) (x y : ℕ) :
    batchFor frame cols rows fontSize true pick t =
      (batchFor frame cols rows fontSize false pick t).map
        (fun gl => { gl with x := (cols - 1) * fontSize - gl.x }) ∧
    drawPos true cols fontSize x y = ((cols - 1 - x) * fontSize, y * fontSize) ∧
    drawPos false cols fontSize x y = (x * fontSize, y * fontSize) := by
  refine ⟨?_, rfl, rfl⟩
  simp only [batchFor, List.map_map]
  apply List.map_congr_left
  intro c _
  simp [drawPos, Function.comp, Nat.sub_mul]

/-- **C10.** The five tier batches partition the visible cells: the batch
lengths sum to the number of cells whose classification is not dropped,
that sum is at most `cols · rows`, a visible cell lies in the cell list of
exactly one tier, and a dropped cell lies in none. -/
theorem batches_partition (frame : ℕ → ℕ → Px) (cols rows fontSize : ℕ) (m : Bool)
    (pick : ℕ → ℕ → Char) :
    ((batchFor frame cols rows fontSize m pick .DIM).length +
      (batchFor frame cols rows fontSize m pick .LOW).length +
      (batchFor frame cols rows fontSize m pick .MID).length +
      (batchFor frame cols rows fontSize m pick .BRIGHT).length +
      (batchFor frame cols rows fontSize m pick .GLOW).length =
      (gridCells cols rows).countP (fun c => (classifyPx (frame c.1 c.2)).isSome)) ∧
    ((batchFor frame cols rows fontSize m pick .DIM).length +
      (batchFor frame cols rows fontSize m pick .LOW).length +
      (batchFor frame cols rows fontSize m pick .MID).length +
      (batchFor frame cols rows fontSize m pick .BRIGHT).length +
      (batchFor frame cols rows fontSize m pick .GLOW).length ≤ cols * rows) ∧
    ∀ x y : ℕ, x < cols → y < rows →
      ((classifyPx (frame x y)).isSome →
        ∃! t : Tier, (x, y) ∈ tierCells frame cols rows t) ∧
      (classifyPx (frame x y) = none →
        ∀ t : Tier, (x, y) ∉ tierCells frame cols rows t) := by
  have hsum : (batchFor frame cols rows fontSize m pick .DIM).length +
      (batchFor frame cols rows fontSize m pick .LOW).length +
      (batchFor frame cols rows fontSize m pick .MID).length +
      (batchFor frame cols rows fontSize m pick .BRIGHT).length +
      (batchFor frame cols rows fontSize m pick .GLOW).length =
      (gridCells cols rows).countP (fun c => (classifyPx (frame c.1 c.2)).isSome) := by
    simp only [batchFor_length]
    exact countP_tiers frame (gridCells cols rows)
  refine ⟨hsum, ?_, ?_⟩
  · calc _ = (gridCells cols rows).countP (fun c => (classifyPx (frame c.1 c.2)).isSome) := hsum
      _ ≤ (gridCells cols rows).length := List.countP_le_length _
      _ = cols * rows := length_gridCells cols rows
  · intro x y hx hy
    constructor
    · intro hsome
      rcases Option.isSome_iff_exists.mp hsome with ⟨t, ht⟩
      refine ⟨t, mem_tierCells.mpr ⟨⟨hx, hy⟩, ht⟩, ?_⟩
      intro t' ht'
      have := (mem_tierCells.mp ht').2
      rw [ht] at this
      exact (Option.some_inj.mp this).symm
    · intro hnone t hmem
      have := (mem_tierCells.mp hmem).2
      rw [hnone] at this
      exact Option.noConfusion this

/-- Witness for **C10** at a concrete 2×2 constant frame. -/
theorem batches_partition_witness :
    (batchFor (fun _ _ => ⟨128, 128, 128⟩) 2 2 1 false (fun _ _ => 'A') .DIM).length +
      (batchFor (fun _ _ => ⟨128, 128, 128⟩) 2 2 1 false (fun _ _ => 'A') .LOW).length +
      (batchFor (fun _ _ => ⟨128, 128, 128⟩) 2 2 1 false (fun _ _ => 'A') .MID).length +
      (batchFor (fun _ _ => ⟨128, 128, 128⟩) 2 2 1 false (fun _ _ => 'A') .BRIGHT).length +
      (batchFor (fun _ _ => ⟨128, 128, 128⟩) 2 2 1 false (fun _ _ => 'A') .GLOW).length ≤ 2 * 2 :=
  (batches_partition (fun _ _ => ⟨128, 128, 128⟩) 2 2 1 false (fun _ _ => 'A')).2.1

/-- A canvas-2D command as issued by the rendering section of
`processFrame` (`MatrixCanvas.tsx`, lines 94–159): style-state writes and
paint calls. -/
inductive Cmd where
  | fillStyle (c : String)
  | globalAlpha (a : ℚ)
  | shadowColor (c : String)
  | shadowBlur (v : ℚ)
  | fillRect (x y w h : ℚ)
  | fillText (ch : Char) (x y : ℕ)
  | font (f : String)
  | textBaseline (s : String)
deriving DecidableEq, Repr

/-- The mutable style state of a canvas 2D context. -/
structure CtxState where
  fillStyle : String
  globalAlpha : ℚ
  shadowColor : String
  shadowBlur : ℚ
deriving DecidableEq, Repr

/-- Canvas defaults of a fresh 2D context. -/
def freshCtx : CtxState :=
  { fillStyle := "#000000", globalAlpha := 1, shadowColor := "rgba(0, 0, 0, 0)", shadowBlur := 0 }

/-- One pixel-affecting operation, recorded together with the style state
in force when it was issued. -/
inductive Paint where
  | rect (x y w h : ℚ) (style : String) (alpha : ℚ)
  | text (ch : Char) (x y : ℕ) (style : String) (alpha blur : ℚ)
deriving DecidableEq, Repr

/-- Effect of one command on the context state, producing a paint when the
command draws. -/
def stepCmd (st : CtxState) : Cmd → CtxState × Option Paint
  | .fillStyle c => ({ st with fillStyle := c }, none)
  | .globalAlpha a => ({ st with globalAlpha := a }, none)
  | .shadowColor c => ({ st with shadowColor := c }, none)
  | .shadowBlur v => ({ st with shadowBlur := v }, none)
  | .fillRect x y w h => (st, some (.rect x y w h st.fillStyle st.globalAlpha))
  | .fillText ch x y => (st, some (.text ch x y st.fillStyle st.globalAlpha st.shadowBlur))
  | .font _ => (st, none)
  | .textBaseline _ => (st, none)

/-- Run a command list, collecting the paints in order. -/
def runCmds : CtxState → List Cmd → CtxState × List Paint
  | st, [] => (st, [])
  | st, c :: cs =>
    let s1 := stepCmd st c
    let rest := runCmds s1.1 cs
    (rest.1, s1.2.toList ++ rest.2)

/-- The CSS font string of `MatrixCanvas.tsx`, line 97. -/
def fontString (fontSize : ℕ) : String :=
  toString fontSize ++ "px \x27Share Tech Mono\x27, monospace"

/-- The command block one tier contributes (`MatrixCanvas.tsx`,
lines 131–158): nothing when its batch is empty, otherwise set the tier's
fill color and opacity once, for GLOW additionally enable the shadow glow,
draw every batched glyph, and for GLOW reset the shadow blur to 0. -/
def tierCmds (t : Tier) (b : List GlyphDraw) : List Cmd :=
  if b.length ≠ 0 then
    [.fillStyle (BUCKETS t).color, .globalAlpha (BUCKETS t).alpha]
    ++ (if t = .GLOW then [.shadowColor (BUCKETS .GLOW).glowColor, .shadowBlur (BUCKETS .GLOW).glow] else [])
    ++ b.map (fun p => .fillText p.char p.x p.y)
    ++ (if t = .GLOW then [.shadowBlur 0] else [])
  else []

/-- The full command sequence of one executed render
(`MatrixCanvas.tsx`, lines 94–159): black full-surface clear, font setup,
then the five tier blocks in the fixed order DIM, LOW, MID, BRIGHT, GLOW,
then the final `globalAlpha = 1.0` reset. -/
def renderCmds (displayWidth displayHeight : ℚ) (fontSize : ℕ)
    (batch : Tier → List GlyphDraw) : List Cmd :=
  [.fillStyle "#000000", .fillRect 0 0 displayWidth displayHeight,
   .font (fontString fontSize), .textBaseline "top"]
  ++ tierCmds .DIM (batch .DIM) ++ tierCmds .LOW (batch .LOW)
  ++ tierCmds .MID (batch .MID) ++ tierCmds .BRIGHT (batch .BRIGHT)
  ++ tierCmds .GLOW (batch .GLOW)
  ++ [.globalAlpha 1.0]

/-- The paints a tier's batch is expected to produce: one text paint per
glyph, in batch order, with the tier's color and opacity and a 15-pixel
blur exactly for GLOW. -/
def tierPaints (t : Tier) (b : List GlyphDraw) : List Paint :=
  b.map fun p =>
    .text p.char p.x p.y (BUCKETS t).color (BUCKETS t).alpha
      (if t = .GLOW then (BUCKETS .GLOW).glow else 0)

lemma runCmds_append (st : CtxState) (l1 l2 : List Cmd) :
    runCmds st (l1 ++ l2) =
      ((runCmds (runCmds st l1).1 l2).1,
       (runCmds st l1).2 ++ (runCmds (runCmds st l1).1 l2).2) := by
  induction l1 generalizing st with
  | nil => simp [runCmds]
  | cons c cs ih => simp [runCmds, ih, List.append_assoc]

lemma runCmds_texts (st : CtxState) (b : List GlyphDraw) :
    runCmds st (b.map fun p => .fillText p.char p.x p.y) =
      (st, b.map fun p => .text p.char p.x p.y st.fillStyle st.globalAlpha st.shadowBlur) := by
  induction b with
  | nil => simp [runCmds]
  | cons p b ih => simp [runCmds, stepCmd, ih]

lemma runCmds_tier (t : Tier) (b : List GlyphDraw) (st : CtxState) (hb : st.shadowBlur = 0) :
    (runCmds st (tierCmds t b)).2 = tierPaints t b ∧
    (runCmds st (tierCmds t b)).1.shadowBlur = 0 := by
  by_cases hlen : b.length = 0
  · have hnil : b = [] := List.length_eq_zero.mp hlen
    subst hnil
    simp [tierCmds, runCmds, tierPaints, hb]
  · by_cases hglow : t = .GLOW
    · subst hglow
      simp [tierCmds, hlen, runCmds_append, runCmds, stepCmd, runCmds_texts, tierPaints, BUCKETS]
    · simp [tierCmds, hlen, hglow, runCmds_append, runCmds, stepCmd, runCmds_texts, tierPaints, hb]

/-- Recognizer for fill-color writes. -/
def isFillStyleCmd : Cmd → Bool
  | .fillStyle _ => true
  | _ => false

/-- Recognizer for opacity writes. -/
def isAlphaCmd : Cmd → Bool
  | .globalAlpha _ => true
  | _ => false

/-- Number of tiers whose batch is nonempty. -/
def nonemptyTiers (batch : Tier → List GlyphDraw) : ℕ :=
  (if (batch .DIM).length = 0 then 0 else 1) +
  (if (batch .LOW).length = 0 then 0 else 1) +
  (if (batch .MID).length = 0 then 0 else 1) +
  (if (batch .BRIGHT).length = 0 then 0 else 1) +
  (if (batch .GLOW).length = 0 then 0 else 1)

lemma countP_tierCmds_fill (t : Tier) (b : List GlyphDraw) :
    (tierCmds t b).countP isFillStyleCmd = if b.length = 0 then 0 else 1 := by
  by_cases hlen : b.length = 0 <;> by_cases hg : t = Tier.GLOW <;>
    simp [tierCmds, hlen, hg, isFillStyleCmd, List.countP_append, List.countP_cons,
      List.countP_map, Function.comp]

lemma countP_tierCmds_alpha (t : Tier) (b : List GlyphDraw) :
    (tierCmds t b).countP isAlphaCmd = if b.length = 0 then 0 else 1 := by
  by_cases hlen : b.length = 0 <;> by_cases hg : t = Tier.GLOW <;>
    simp [tierCmds, hlen, hg, isAlphaCmd, List.countP_append, List.countP_cons,
      List.countP_map, Function.comp]

lemma runCmds_render (w h : ℚ) (fz : ℕ) (batch : Tier → List GlyphDraw) (st0 : CtxState)
    (ha : st0.globalAlpha = 1) (hb : st0.shadowBlur = 0) :
    (runCmds st0 (renderCmds w h fz batch)).2 =
      Paint.rect 0 0 w h "#000000" 1 ::
        (tierPaints .DIM (batch .DIM) ++ tierPaints .LOW (batch .LOW) ++
         tierPaints .MID (batch .MID) ++ tierPaints .BRIGHT (batch .BRIGHT) ++
         tierPaints .GLOW (batch .GLOW)) ∧
    (runCmds st0 (renderCmds w h fz batch)).1.globalAlpha = 1 ∧
    (runCmds st0 (renderCmds w h fz batch)).1.shadowBlur = 0 := by
  have hpre : runCmds st0
      [.fillStyle "#000000", .fillRect 0 0 w h, .font (fontString fz), .textBaseline "top"] =
      ({ st0 with fillStyle := "#000000" }, [Paint.rect 0 0 w h "#000000" st0.globalAlpha]) := by
    simp [runCmds, stepCmd]
  set stp : CtxState := { st0 with fillStyle := "#000000" } with hstp
  have hbp : stp.shadowBlur = 0 := hb
  have t1 := runCmds_tier .DIM (batch .DIM) stp hbp
  set st1 : CtxState := (runCmds stp (tierCmds .DIM (batch .DIM))).1 with hst1
  have t2 := runCmds_tier .LOW (batch .LOW) st1 t1.2
  set st2 : CtxState := (runCmds st1 (tierCmds .LOW (batch .LOW))).1 with hst2
  have t3 := runCmds_tier .MID (batch .MID) st2 t2.2
  set st3 : CtxState := (runCmds st2 (tierCmds .MID (batch .MID))).1 with hst3
  have t4 := runCmds_tier .BRIGHT (batch .BRIGHT) st3 t3.2
  set st4 : CtxState := (runCmds st3 (tierCmds .BRIGHT (batch .BRIGHT))).1 with hst4
  have t5 := runCmds_tier .GLOW (batch .GLOW) st4 t4.2
  set st5 : CtxState := (runCmds st4 (tierCmds .GLOW (batch .GLOW))).1 with hst5
  have hfin : ∀ st : CtxState, runCmds st [Cmd.globalAlpha 1.0] =
      ({ st with globalAlpha := 1 }, []) := by
    intro st
    norm_num [runCmds, stepCmd]
  simp only [renderCmds, runCmds_append, hpre, hfin, ← hst1, ← hst2, ← hst3, ← hst4, ← hst5,
    t1.1, t2.1, t3.1, t4.1, t5.1, ha]
  exact ⟨by simp, trivial, t5.2⟩

/-- **C8.** In every executed render the first paint is a full-surface
opaque-black rectangle (a full repaint with alpha 1), the text paints are
exactly the five batches in the fixed order DIM, LOW, MID, BRIGHT, GLOW,
each drawn with its tier's color and opacity, with the 15-pixel glow blur
active exactly for the GLOW batch; afterwards the context's shadow blur is
back to 0 and its global alpha to 1; and the command stream writes the
fill color and the opacity once per nonempty batch (plus the initial black
fill and the final alpha reset), not once per glyph. -/
theorem renderer_repaint_order_batched (w h : ℚ) (fz : ℕ) (batch : Tier → List GlyphDraw)
    (st0 : CtxState) (ha : st0.globalAlpha = 1) (hb : st0.shadowBlur = 0) :
    (runCmds st0 (renderCmds w h fz batch)).2 =
      Paint.rect 0 0 w h "#000000" 1 ::
        (tierPaints .DIM (batch .DIM) ++ tierPaints .LOW (batch .LOW) ++
         tierPaints .MID (batch .MID) ++ tierPaints .BRIGHT (batch .BRIGHT) ++
         tierPaints .GLOW (batch .GLOW)) ∧
    (runCmds st0 (renderCmds w h fz batch)).1.globalAlpha = 1 ∧
    (runCmds st0 (renderCmds w h fz batch)).1.shadowBlur = 0 ∧
    (renderCmds w h fz batch).countP isFillStyleCmd = 1 + nonemptyTiers batch ∧
    (renderCmds w h fz batch).countP isAlphaCmd = 1 + nonemptyTiers batch := by
  obtain ⟨h1, h2, h3⟩ := runCmds_render w h fz batch st0 ha hb
  refine ⟨h1, h2, h3, ?_, ?_⟩ <;>
    simp [renderCmds, List.countP_append, countP_tierCmds_fill, countP_tierCmds_alpha,
      List.countP_cons, isFillStyleCmd, isAlphaCmd, nonemptyTiers] <;>
    split_ifs <;> omega

/-- Witness for **C8** with all batches empty on a fresh context. -/
theorem renderer_repaint_order_batched_witness :
    (runCmds freshCtx (renderCmds 2 3 1 (fun _ => []))).2 =
      Paint.rect 0 0 2 3 "#000000" 1 ::
        (tierPaints .DIM [] ++ tierPaints .LOW [] ++ tierPaints .MID [] ++
         tierPaints .BRIGHT [] ++ tierPaints .GLOW []) ∧
    (runCmds freshCtx (renderCmds 2 3 1 (fun _ => []))).1.globalAlpha = 1 ∧
    (runCmds freshCtx (renderCmds 2 3 1 (fun _ => []))).1.shadowBlur = 0 ∧
    (renderCmds 2 3 1 (fun _ => [])).countP isFillStyleCmd = 1 + nonemptyTiers (fun _ => []) ∧
    (renderCmds 2 3 1 (fun _ => [])).countP isAlphaCmd = 1 + nonemptyTiers (fun _ => []) :=
  renderer_repaint_order_batched 2 3 1 (fun _ => []) freshCtx rfl rfl

/-- The solid mid-gray test frame: every cell samples (128, 128, 128). -/
def grayFrame : ℕ → ℕ → Px := fun _ _ => ⟨128, 128, 128⟩

lemma classify_gray : classify 128 128 128 = some Tier.LOW := by
  norm_num [classify, classifyC, contrastOf, luma, BUCKETS]

lemma tierCells_gray_low : tierCells grayFrame 10 10 .LOW = gridCells 10 10 := by
  unfold tierCells
  apply List.filter_eq_self.mpr
  intro c _
  simp [classifyPx, grayFrame, classify_gray]

lemma tierCells_gray_other (t : Tier) (ht : t ≠ .LOW) :
    tierCells grayFrame 10 10 t = [] := by
  unfold tierCells
  rw [List.filter_eq_nil_iff]
  intro c _
  simp only [classifyPx, grayFrame, classify_gray, decide_eq_true_eq, Option.some_inj]
  exact fun h => ht h.symm

/-- **C1 (amended).** For the solid mid-gray frame (r=g=b=128) on a 10×10
grid with cellSize 10, the contrast of every cell is ≈ 77 (strictly
between 77 and 78), every cell is assigned tier LOW — not MID, since
77 ≉> 90 — and the rendered output is the black clear followed by exactly
100 glyph paints, all styled with LOW's color `#007500` and opacity 0.40
and none with GLOW styling (no glow color, no blur). -/
theorem gray_frame_all_low (pick : ℕ → ℕ → Char) :
    (77 < contrastOf 128 128 128 ∧ contrastOf 128 128 128 < 78) ∧
    classify 128 128 128 = some Tier.LOW ∧
    (batchFor grayFrame 10 10 10 false pick .LOW).length = 100 ∧
    (∀ t : Tier, t ≠ .LOW → batchFor grayFrame 10 10 10 false pick t = []) ∧
    (runCmds freshCtx (renderCmds 100 100 10 (batchFor grayFrame 10 10 10 false pick))).2 =
      Paint.rect 0 0 100 100 "#000000" 1 ::
        (batchFor grayFrame 10 10 10 false pick .LOW).map
          (fun p => Paint.text p.char p.x p.y "#007500" 0.40 0) := by
  have hother : ∀ t : Tier, t ≠ .LOW → batchFor grayFrame 10 10 10 false pick t = [] := by
    intro t ht
    simp [batchFor, tierCells_gray_other t ht]
  have hlen : (batchFor grayFrame 10 10 10 false pick .LOW).length = 100 := by
    simp [batchFor, tierCells_gray_low, length_gridCells]
  refine ⟨⟨?_, ?_⟩, classify_gray, hlen, hother, ?_⟩
  · norm_num [contrastOf, luma]
  · norm_num [contrastOf, luma]
  · obtain ⟨h1, -, -⟩ :=
      runCmds_render 100 100 10 (batchFor grayFrame 10 10 10 false pick) freshCtx rfl rfl
    rw [h1, hother .DIM (by decide), hother .MID (by decide), hother .BRIGHT (by decide),
      hother .GLOW (by decide)]
    simp [tierPaints, BUCKETS]

/-- Counterexample to **C1 as stated**: the classifier does not assign MID
to a mid-gray cell. -/
theorem gray_frame_not_mid : classify 128 128 128 ≠ some Tier.MID := by
  rw [classify_gray]
  decide


/-- The target frame rate (`MatrixCanvas.tsx`, line 37). -/
def TARGET_FPS : ℚ := 30

/-- The throttle interval in milliseconds (`MatrixCanvas.tsx`, line 38:
`FRAME_INTERVAL = 1000 / TARGET_FPS`). -/
def FRAME_INTERVAL : ℚ := 1000 / TARGET_FPS

/-- JavaScript's `%` on numbers, for a nonnegative dividend and positive
divisor (the only case `processFrame` uses: `elapsed % FRAME_INTERVAL`
with `elapsed ≥ FRAME_INTERVAL > 0`). -/
def jsMod (a b : ℚ) : ℚ :=
  a - b * ⌊a / b⌋

/-- Everything one `processFrame` callback observes besides the stored
last-draw time: the ref and prop guards of line 44, the callback
timestamp, and the availability checks of lines 53–56 and 85–86. -/
structure TickEnv where
  hasVideo : Bool
  hasCanvas : Bool
  isActive : Bool
  timestamp : ℚ
  hasCtx : Bool
  videoReady : Bool
  hasSmallCtx : Bool
deriving Repr

/-- What one `processFrame` callback did: whether it passed the FPS
throttle (and so wrote `lastDrawTimeRef`), whether it reached the
sampling/classification/batching/rendering stage, the stored last-draw
time afterwards, and whether it called `requestAnimationFrame` again. -/
structure TickResult where
  executed : Bool
  rendered : Bool
  lastDraw : ℚ
  rescheduled : Bool
deriving Repr

/-- One invocation of `processFrame` (`MatrixCanvas.tsx`, lines 40–163) as
a function of the environment and the stored `lastDrawTimeRef` value:
line 44's early return, the throttle of lines 46–51, the context check of
lines 53–54 (plain `return`, no reschedule), the readiness gate of
line 56, the small-context check of lines 85–86 (plain `return`, no
reschedule), and the tail reschedule of line 162. -/
def tick (env : TickEnv) (lastDraw : ℚ) : TickResult :=
  if !env.hasVideo || !env.hasCanvas || !env.isActive then
    { executed := false, rendered := false, lastDraw := lastDraw, rescheduled := false }
  else
    let elapsed := env.timestamp - lastDraw
    if elapsed < FRAME_INTERVAL then
      { executed := false, rendered := false, lastDraw := lastDraw, rescheduled := true }
    else
      let lastDraw' := env.timestamp - jsMod elapsed FRAME_INTERVAL
      if !env.hasCtx then
        { executed := true, rendered := false, lastDraw := lastDraw', rescheduled := false }
      else if env.videoReady then
        if !env.hasSmallCtx then
          { executed := true, rendered := false, lastDraw := lastDraw', rescheduled := false }
        else
          { executed := true, rendered := true, lastDraw := lastDraw', rescheduled := true }
      else
        { executed := true, rendered := false, lastDraw := lastDraw', rescheduled := true }

lemma jsMod_nonneg {a b : ℚ} (hb : 0 < b) : 0 ≤ jsMod a b := by
  unfold jsMod
  have h := Int.floor_le (a / b)
  have : b * (⌊a / b⌋ : ℚ) ≤ b * (a / b) := by
    exact mul_le_mul_of_nonneg_left h (le_of_lt hb)
  rw [mul_div_cancel₀ a (ne_of_gt hb)] at this
  linarith

lemma jsMod_lt {a b : ℚ} (hb : 0 < b) : jsMod a b < b := by
  unfold jsMod
  have h := Int.lt_floor_add_one (a / b)
  have : b * (a / b) < b * ((⌊a / b⌋ : ℚ) + 1) :=
    mul_lt_mul_of_pos_left h hb
  rw [mul_div_cancel₀ a (ne_of_gt hb)] at this
  linarith

lemma FRAME_INTERVAL_pos : (0:ℚ) < FRAME_INTERVAL := by
  norm_num [FRAME_INTERVAL, TARGET_FPS]

/-- **C6.** For a callback on an active engine: when the elapsed time
since the stored last tick is below `FRAME_INTERVAL`, the callback only
reschedules — no throttle write, no rendering work, state unchanged.  When
the throttle passes, the stored time becomes
`timestamp − (elapsed mod interval)`; that stored time `L'` satisfies
`L' ≤ timestamp < L' + interval`, and no later callback whose timestamp is
still below `L' + interval` can execute — so at most one tick executes per
interval-length window `[L', L' + interval)`. -/
theorem scheduler_throttle_and_drift (env : TickEnv) (lastDraw : ℚ)
    (hv : env.hasVideo = true) (hc : env.hasCanvas = true) (ha : env.isActive = true) :
    (env.timestamp - lastDraw < FRAME_INTERVAL →
      tick env lastDraw =
        { executed := false, rendered := false, lastDraw := lastDraw, rescheduled := true }) ∧
    (¬ env.timestamp - lastDraw < FRAME_INTERVAL →
      (tick env lastDraw).executed = true ∧
      (tick env lastDraw).lastDraw =
        env.timestamp - jsMod (env.timestamp - lastDraw) FRAME_INTERVAL ∧
      (tick env lastDraw).lastDraw ≤ env.timestamp ∧
      env.timestamp < (tick env lastDraw).lastDraw + FRAME_INTERVAL ∧
      ∀ env2 : TickEnv, env2.timestamp < (tick env lastDraw).lastDraw + FRAME_INTERVAL →
        (tick env2 (tick env lastDraw).lastDraw).executed = false) := by
  constructor
  · intro hlt
    simp [tick, hv, hc, ha, hlt]
  · intro hge
    have hstep : tick env lastDraw =
        if !env.hasCtx then
          { executed := true, rendered := false,
            lastDraw := env.timestamp - jsMod (env.timestamp - lastDraw) FRAME_INTERVAL,
            rescheduled := false }
        else if env.videoReady then
          if !env.hasSmallCtx then
            { executed := true, rendered := false,
              lastDraw := env.timestamp - jsMod (env.timestamp - lastDraw) FRAME_INTERVAL,
              rescheduled := false }
          else
            { executed := true, rendered := true,
              lastDraw := env.timestamp - jsMod (env.timestamp - lastDraw) FRAME_INTERVAL,
              rescheduled := true }
        else
          { executed := true, rendered := false,
            lastDraw := env.timestamp - jsMod (env.timestamp - lastDraw) FRAME_INTERVAL,
            rescheduled := true } := by
      simp [tick, hv, hc, ha, hge]
    have hexec : (tick env lastDraw).executed = true := by
      rw [hstep]
      rcases env.hasCtx <;> rcases env.videoReady <;> rcases env.hasSmallCtx <;> simp
    have hld : (tick env lastDraw).lastDraw =
        env.timestamp - jsMod (env.timestamp - lastDraw) FRAME_INTERVAL := by
      rw [hstep]
      rcases env.hasCtx <;> rcases env.videoReady <;> rcases env.hasSmallCtx <;> simp
    refine ⟨hexec, hld, ?_, ?_, ?_⟩
    · rw [hld]
      have := jsMod_nonneg (a := env.timestamp - lastDraw) FRAME_INTERVAL_pos
      linarith
    · rw [hld]
      have := jsMod_lt (a := env.timestamp - lastDraw) FRAME_INTERVAL_pos
      linarith
    · intro env2 h2
      rw [hld] at h2 ⊢
      have hlt2 : env2.timestamp -
          (env.timestamp - jsMod (env.timestamp - lastDraw) FRAME_INTERVAL) < FRAME_INTERVAL := by
        linarith
      rcases hv2 : env2.hasVideo <;> rcases hc2 : env2.hasCanvas <;> rcases ha2 : env2.isActive <;>
        simp [tick, hv2, hc2, ha2, hlt2]

/-- Witness for **C6** at a concrete environment (timestamp 20,
last draw 0). -/
theorem scheduler_throttle_and_drift_witness :
    ((⟨true, true, true, 20, true, true, true⟩ : TickEnv).timestamp - 0 < FRAME_INTERVAL →
      tick ⟨true, true, true, 20, true, true, true⟩ 0 =
        { executed := false, rendered := false, lastDraw := 0, rescheduled := true }) ∧
    (¬ (⟨true, true, true, 20, true, true, true⟩ : TickEnv).timestamp - 0 < FRAME_INTERVAL →
      (tick ⟨true, true, true, 20, true, true, true⟩ 0).executed = true ∧
      (tick ⟨true, true, true, 20, true, true, true⟩ 0).lastDraw =
        (⟨true, true, true, 20, true, true, true⟩ : TickEnv).timestamp -
          jsMod ((⟨true, true, true, 20, true, true, true⟩ : TickEnv).timestamp - 0) FRAME_INTERVAL ∧
      (tick ⟨true, true, true, 20, true, true, true⟩ 0).lastDraw ≤
        (⟨true, true, true, 20, true, true, true⟩ : TickEnv).timestamp ∧
      (⟨true, true, true, 20, true, true, true⟩ : TickEnv).timestamp <
        (tick ⟨true, true, true, 20, true, true, true⟩ 0).lastDraw + FRAME_INTERVAL ∧
      ∀ env2 : TickEnv,
        env2.timestamp < (tick ⟨true, true, true, 20, true, true, true⟩ 0).lastDraw + FRAME_INTERVAL →
        (tick env2 (tick ⟨true, true, true, 20, true, true, true⟩ 0).lastDraw).executed = false) :=
  scheduler_throttle_and_drift ⟨true, true, true, 20, true, true, true⟩ 0 rfl rfl rfl

/-- Counterexample to **C3 as stated**: with the output context
unavailable, a callback that passed the throttle does **not** call
`requestAnimationFrame` again — no next tick is scheduled, so there is no
retry. -/
theorem ctx_loss_kills_loop_counterexample :
    (tick ⟨true, true, true, 100, false, true, true⟩ 0).executed = true ∧
    (tick ⟨true, true, true, 100, false, true, true⟩ 0).rescheduled = false := by
  norm_num [tick, FRAME_INTERVAL, TARGET_FPS]

lemma hundred_not_lt_interval : ¬ ((100:ℚ) - 0 < FRAME_INTERVAL) := by
  norm_num [FRAME_INTERVAL, TARGET_FPS]

/-- **C3 (amended).** If obtaining the output drawing context fails — or
the downsample buffer's context fails while the video is ready — during a
callback that passed the FPS throttle, that callback aborts without
rendering **and without scheduling a next tick**: the animation loop
halts until something external (an `isActive` or props change re-running
the start effect) restarts it. -/
theorem ctx_loss_halts_loop (env : TickEnv) (lastDraw : ℚ)
    (hv : env.hasVideo = true) (hc : env.hasCanvas = true) (ha : env.isActive = true)
    (hge : ¬ env.timestamp - lastDraw < FRAME_INTERVAL)
    (hfail : env.hasCtx = false ∨ (env.videoReady = true ∧ env.hasSmallCtx = false)) :
    (tick env lastDraw).rendered = false ∧ (tick env lastDraw).rescheduled = false := by
  rcases hfail with h | ⟨hvr, hs⟩ <;> simp [tick, hv, hc, ha, hge, *]

/-- Witness for **C3 (amended)** at a concrete environment. -/
theorem ctx_loss_halts_loop_witness :
    (tick ⟨true, true, true, 100, false, true, true⟩ 0).rendered = false ∧
    (tick ⟨true, true, true, 100, false, true, true⟩ 0).rescheduled = false :=
  ctx_loss_halts_loop ⟨true, true, true, 100, false, true, true⟩ 0 rfl rfl rfl
    hundred_not_lt_interval (Or.inl rfl)

/-- One committed render of the canvas component as the capture effect
sees it: the `captureTrigger` prop, the identity of the `onFrameCapture`
prop (React compares dependency entries by identity), and whether
`canvasRef.current` and `onFrameCapture` are present. -/
structure RenderObs where
  captureTrigger : ℕ
  callbackId : ℕ
  hasCanvas : Bool
  hasCallback : Bool
deriving DecidableEq, Repr

/-- The guard of the capture effect body (`MatrixCanvas.tsx`, line 166):
`captureTrigger && captureTrigger > 0 && canvasRef.current && onFrameCapture`. -/
def effectGuard (r : RenderObs) : Bool :=
  (r.captureTrigger != 0) && decide (r.captureTrigger > 0) && r.hasCanvas && r.hasCallback

/-- React's comparison of the dependency array `[captureTrigger,
onFrameCapture]` (`MatrixCanvas.tsx`, line 170): the effect re-runs when
either entry changed since the previous committed render. -/
def depsChanged (prev cur : RenderObs) : Bool :=
  (prev.captureTrigger != cur.captureTrigger) || (prev.callbackId != cur.callbackId)

/-- Number of capture invocations (`toDataURL` plus `onFrameCapture`
delivery) over a render sequence: the effect runs on mount and on every
render whose dependencies changed, and captures whenever its guard holds. -/
def captures : Option RenderObs → List RenderObs → ℕ
  | _, [] => 0
  | none, r :: rs => (if effectGuard r then 1 else 0) + captures (some r) rs
  | some p, r :: rs =>
      (if depsChanged p r && effectGuard r then 1 else 0) + captures (some r) rs

/-- Number of renders at which the trigger counter changed and the capture
guard held. -/
def firingIncrements : Option RenderObs → List RenderObs → ℕ
  | _, [] => 0
  | none, r :: rs => firingIncrements (some r) rs
  | some p, r :: rs =>
      (if (p.captureTrigger != r.captureTrigger) && effectGuard r then 1 else 0) +
        firingIncrements (some r) rs

/-- Total number of increments of the (only ever incremented) trigger
counter visible across a render sequence. -/
def increments : Option RenderObs → List RenderObs → ℕ
  | _, [] => 0
  | none, r :: rs => increments (some r) rs
  | some p, r :: rs => (r.captureTrigger - p.captureTrigger) + increments (some r) rs

/-- Counterexample to **C4 as stated**: one increment of the trigger (0 to
1) followed by a render in which only the callback identity changed yields
two capture invocations — the effect re-fires with no new increment. -/
theorem capture_refires_counterexample :
    increments none
      [⟨0, 0, true, true⟩, ⟨1, 1, true, true⟩, ⟨1, 2, true, true⟩] = 1 ∧
    captures none
      [⟨0, 0, true, true⟩, ⟨1, 1, true, true⟩, ⟨1, 2, true, true⟩] = 2 := by
  decide

/-- **C4 (amended).** Every render at which the trigger counter changed
and the guard holds (trigger positive, canvas and callback present) fires
a capture — at least one invocation per trigger-changing render, and
exactly one invocation for a single such render — but an increment can
cause additional invocations, because the effect also re-fires whenever
the callback identity changes while the trigger is positive. -/
theorem capture_per_increment (p : RenderObs) (rs : List RenderObs) :
    firingIncrements (some p) rs ≤ captures (some p) rs ∧
    ∀ q r : RenderObs, q.captureTrigger ≠ r.captureTrigger → effectGuard r = true →
      captures (some q) [r] = 1 := by
  constructor
  · induction rs generalizing p with
    | nil => simp [firingIncrements, captures]
    | cons r rs ih =>
      simp only [firingIncrements, captures]
      have h := ih r
      rcases htr : (p.captureTrigger != r.captureTrigger) <;> rcases hg : effectGuard r <;>
        simp [depsChanged, htr, hg] <;> omega
  · intro q r hne hg
    simp [captures, depsChanged, hg, bne_iff_ne, hne]

/-- Witness for **C4 (amended)** on a concrete one-increment trace. -/
theorem capture_per_increment_witness :
    firingIncrements (some ⟨0, 0, true, true⟩) [⟨1, 1, true, true⟩] ≤
      captures (some ⟨0, 0, true, true⟩) [⟨1, 1, true, true⟩] ∧
    ∀ q r : RenderObs, q.captureTrigger ≠ r.captureTrigger → effectGuard r = true →
      captures (some q) [r] = 1 :=
  capture_per_increment ⟨0, 0, true, true⟩ [⟨1, 1, true, true⟩]

/-- The reusable downsample canvas: an identity tag (allocation counter)
plus its current bitmap dimensions. -/
structure SmallCanvas where
  id : ℕ
  width : ℕ
  height : ℕ
deriving DecidableEq, Repr

/-- Lines 75–83 of `MatrixCanvas.tsx`: allocate the small canvas only when
the ref is empty (a fresh HTML canvas starts at 300×150), then write its
dimensions only when they differ from the newly derived `cols`/`rows`.
Returns the canvas afterwards, whether an allocation happened, and whether
the dimensions were written. -/
def ensureSmallCanvas (cur : Option SmallCanvas) (freshId cols rows : ℕ) :
    SmallCanvas × Bool × Bool :=
  let alloc := cur.isNone
  let c := match cur with
    | none => { id := freshId, width := 300, height := 150 }
    | some c => c
  if c.width ≠ cols ∨ c.height ≠ rows then
    ({ c with width := cols, height := rows }, alloc, true)
  else (c, alloc, false)

/-- Grid derivation (`MatrixCanvas.tsx`, lines 72–73): `cols =
Math.floor(displayWidth / fontSize)`; on naturals, `Nat` division is that
floor. -/
def gridCols (displayWidth fontSize : ℕ) : ℕ := displayWidth / fontSize

/-- `rows = Math.floor(displayHeight / fontSize)` (line 73). -/
def gridRows (displayHeight fontSize : ℕ) : ℕ := displayHeight / fontSize

/-- **C9.** When the derived `cols`/`rows` (for an unchanged `cellSize`
and display size) equal the small canvas's current dimensions, the tick
returns the very same buffer — no allocation, no dimension write; and a
dimension write happens only when the newly computed `cols` or `rows`
differ from the buffer's current width or height. -/
theorem buffer_reuse (dw dh cs fid : ℕ) (c : SmallCanvas)
    (hw : c.width = gridCols dw cs) (hh : c.height = gridRows dh cs) :
    ensureSmallCanvas (some c) fid (gridCols dw cs) (gridRows dh cs) = (c, false, false) ∧
    ∀ (c' : SmallCanvas) (fid' cols rows : ℕ),
      (ensureSmallCanvas (some c') fid' cols rows).2.2 = true →
        c'.width ≠ cols ∨ c'.height ≠ rows := by
  constructor
  · simp [ensureSmallCanvas, hw, hh]
  · intro c' fid' cols rows hres
    by_cases h : c'.width ≠ cols ∨ c'.height ≠ rows
    · exact h
    · simp [ensureSmallCanvas, h] at hres

/-- Witness for **C9** at concrete dimensions (100×50 display, cell size
10, buffer already 10×5). -/
theorem buffer_reuse_witness :
    ensureSmallCanvas (some ⟨7, 10, 5⟩) 99 (gridCols 100 10) (gridRows 50 10) =
      (⟨7, 10, 5⟩, false, false) ∧
    ∀ (c' : SmallCanvas) (fid' cols rows : ℕ),
      (ensureSmallCanvas (some c') fid' cols rows).2.2 = true →
        c'.width ≠ cols ∨ c'.height ≠ rows :=
  buffer_reuse 100 50 10 99 ⟨7, 10, 5⟩ (by decide) (by decide)

end MatrixVision
